import Mathlib

/-!
Shallow embedding of the SUN-RPC client in `src/sun_rpc_client/src/lib.rs`.

Machine integers (`u32`) are modelled as `Nat` with explicit `% 2^32`
where Rust's (release-mode) wrapping arithmetic or `as u32` casts matter.
The byte-stream transport is modelled as a `List Nat` of byte values; the
`TransportT` type parameter of `RpcClient` becomes a type parameter `σ`
carried in the `transport` field.  Generic serde bounds
(`T: Serialize`, `T: DeserializeOwned + fmt::Debug`) become explicit
function parameters (`encT`, `decT`, `reprT`).

The `sun_rpc` and `serde_xdr` crates are not under `src/`; the message
types and the XDR wire format they provide are modelled from the spec
(sections 3, 4.1, 4.2 and 6 of `spec.md`): big-endian 32-bit integers,
length-prefixed zero-padded opaques, discriminated unions encoded as a
32-bit tag followed by the arm payload, AUTH_SYS flavor 1, AUTH_NONE
flavor 0, and RFC 5531 discriminant numbering (Call = 0 / Reply = 1,
Accepted = 0 / Denied = 1, Success = 0 .. SystemError = 5).
-/

namespace SunRpcClient

variable {T : Type} {σ : Type}

/-- Big-endian 4-byte encoding of the low 32 bits of a natural number. -/
def be32 (n : Nat) : List Nat :=
  [n / 2 ^ 24 % 256, n / 2 ^ 16 % 256, n / 2 ^ 8 % 256, n % 256]

/-- Number of zero padding bytes XDR appends after `n` payload bytes. -/
def pad4 (n : Nat) : Nat := (4 - n % 4) % 4

/-- Modelled from the spec: XDR opaque / string encoding, a 32-bit count
followed by the bytes, zero-padded to a 4-byte boundary (spec section 3;
the `serde_xdr` crate is not under `src/`). -/
def xdrOpaque (b : List Nat) : List Nat :=
  be32 b.length ++ b ++ List.replicate (pad4 b.length) 0

/-- Modelled from the spec: the AUTH_SYS credential body
`{stamp, machine_name, uid, gid, [gids]}` (spec sections 3 and 6; the
`sun_rpc` crate is not under `src/`).  The `Uid`/`Gid` newtype wrappers
are erased to `Nat`. -/
structure AuthSysParameters where
  stamp : Nat
  machine_name : List Nat
  uid : Nat
  gid : Nat
  gids : List Nat
deriving DecidableEq

/-- Modelled from the spec: XDR encoding of `AuthSysParameters`, the
field encodings concatenated in declaration order, `machine_name` as an
XDR string and `gids` as a counted array (spec sections 3 and 6). -/
def AuthSysParameters.encode (p : AuthSysParameters) : List Nat :=
  be32 p.stamp ++ xdrOpaque p.machine_name ++ be32 p.uid ++ be32 p.gid ++
    be32 p.gids.length ++ (p.gids.map be32).flatten

/-- Modelled from the spec: an RPC authenticator, a flavor tag plus an
opaque body (spec section 3; the `sun_rpc` crate is not under `src/`). -/
structure OpaqueAuth where
  flavor : Nat
  body : List Nat
deriving DecidableEq

/-- Modelled from the spec: `OpaqueAuth::auth_sys`, flavor 1 with the
XDR-encoded AUTH_SYS parameters as body (spec section 6: flavor = 1). -/
def OpaqueAuth.auth_sys (p : AuthSysParameters) : OpaqueAuth :=
  { flavor := 1, body := p.encode }

/-- Modelled from the spec: `OpaqueAuth::none`, the AUTH_NONE
authenticator, flavor 0 with an empty body. -/
def OpaqueAuth.none : OpaqueAuth := { flavor := 0, body := [] }

/-- XDR encoding of an authenticator: flavor then opaque body. -/
def OpaqueAuth.encode (a : OpaqueAuth) : List Nat :=
  be32 a.flavor ++ xdrOpaque a.body

/-- Modelled from the spec: the body of a `Call` message
(`rpc_version`, `program`, `version`, `procedure`, credential, verifier,
call-args of type `T`), spec section 3. -/
structure CallBody (T : Type) where
  rpc_version : Nat
  program : Nat
  version : Nat
  procedure : Nat
  credential : OpaqueAuth
  verifier : OpaqueAuth
  call_args : T
deriving DecidableEq

/-- Modelled from the spec: the body of an `Accepted` reply, tagged
Success / ProgramUnavailable / ProgramMismatch(low, high) /
ProcedureUnavailable / GarbageArguments / SystemError with RFC 5531
discriminants 0..5 (spec section 3). -/
inductive AcceptedReplyBody (T : Type) where
  | Success (b : T)
  | ProgramUnavailable
  | ProgramMismatch (low high : Nat)
  | ProcedureUnavailable
  | GarbageArguments
  | SystemError
deriving DecidableEq

/-- Modelled from the spec: an accepted reply carries a verifier and an
`AcceptedReplyBody` (spec section 3). -/
structure AcceptedReply (T : Type) where
  verifier : OpaqueAuth
  body : AcceptedReplyBody T
deriving DecidableEq

/-- Modelled from the spec: a reply is either `Accepted` or `Denied`
(discriminants 0 and 1); the spec gives `Denied` no payload
(spec section 3). -/
inductive ReplyBody (T : Type) where
  | Accepted (r : AcceptedReply T)
  | Denied
deriving DecidableEq

/-- Modelled from the spec: a message body is a `Call` (discriminant 0)
or a `Reply` (discriminant 1), RFC 5531 numbering (spec sections 3, 6). -/
inductive MessageBody (T : Type) where
  | Call (c : CallBody T)
  | Reply (r : ReplyBody T)
deriving DecidableEq

/-- Modelled from the spec: a `Message<T>` carries a 32-bit `xid` and a
body (spec section 3).  The `Xid` newtype wrapper is erased to `Nat`. -/
structure Message (T : Type) where
  xid : Nat
  body : MessageBody T
deriving DecidableEq

/-- XDR encoding of an accepted-reply body: 32-bit discriminant then the
arm payload.  The payload encoder `encT` may fail, as `serde`
serialization of the generic argument type may. -/
def AcceptedReplyBody.encode (encT : T → Option (List Nat)) :
    AcceptedReplyBody T → Option (List Nat)
  | .Success b => (encT b).map (fun bb => be32 0 ++ bb)
  | .ProgramUnavailable => some (be32 1)
  | .ProgramMismatch low high => some (be32 2 ++ be32 low ++ be32 high)
  | .ProcedureUnavailable => some (be32 3)
  | .GarbageArguments => some (be32 4)
  | .SystemError => some (be32 5)

/-- XDR encoding of a reply body: discriminant, then for `Accepted` the
verifier followed by the accepted body. -/
def ReplyBody.encode (encT : T → Option (List Nat)) :
    ReplyBody T → Option (List Nat)
  | .Accepted ar => (ar.body.encode encT).map
      (fun bb => be32 0 ++ ar.verifier.encode ++ bb)
  | .Denied => some (be32 1)

/-- XDR encoding of a message body: discriminant, then the `CallBody`
fields in declaration order, or the encoded reply body. -/
def MessageBody.encode (encT : T → Option (List Nat)) :
    MessageBody T → Option (List Nat)
  | .Call cb => (encT cb.call_args).map
      (fun ab => be32 0 ++ be32 cb.rpc_version ++ be32 cb.program ++
        be32 cb.version ++ be32 cb.procedure ++ cb.credential.encode ++
        cb.verifier.encode ++ ab)
  | .Reply rb => (rb.encode encT).map (fun bb => be32 1 ++ bb)

/-- XDR encoding of a full message: the 32-bit xid then the body. -/
def Message.encode (encT : T → Option (List Nat)) (m : Message T) :
    Option (List Nat) :=
  (m.body.encode encT).map (fun bb => be32 m.xid ++ bb)

/-- Reads one big-endian 32-bit integer from the front of a byte stream,
as `serde_xdr::from_reader` does for a `u32`; fails on a truncated
stream. -/
def readU32 : List Nat → Option (Nat × List Nat)
  | b0 :: b1 :: b2 :: b3 :: rest =>
      some (((b0 * 256 + b1) * 256 + b2) * 256 + b3, rest)
  | _ => Option.none

/-- Reads exactly `n` bytes from the front of a stream; fails when fewer
are available. -/
def readBytes (n : Nat) (s : List Nat) : Option (List Nat × List Nat) :=
  if n ≤ s.length then some (s.take n, s.drop n) else Option.none

/-- Decodes an XDR opaque: count, bytes, then the padding bytes are
consumed and discarded. -/
def decodeOpaque (s : List Nat) : Option (List Nat × List Nat) := do
  let (len, s) ← readU32 s
  let (b, s) ← readBytes len s
  let (_, s) ← readBytes (pad4 len) s
  pure (b, s)

/-- Decodes an authenticator: flavor then opaque body. -/
def decodeOpaqueAuth (s : List Nat) : Option (OpaqueAuth × List Nat) := do
  let (flavor, s) ← readU32 s
  let (body, s) ← decodeOpaque s
  pure ({ flavor := flavor, body := body }, s)

/-- Decodes an accepted-reply body: discriminant 0..5, unknown
discriminants fail (spec section 4.1: unknown tags on decode fail). -/
def decodeAcceptedReplyBody (decT : List Nat → Option (T × List Nat))
    (s : List Nat) : Option (AcceptedReplyBody T × List Nat) := do
  let (tag, s) ← readU32 s
  match tag with
  | 0 => do
      let (b, s) ← decT s
      pure (.Success b, s)
  | 1 => pure (.ProgramUnavailable, s)
  | 2 => do
      let (low, s) ← readU32 s
      let (high, s) ← readU32 s
      pure (.ProgramMismatch low high, s)
  | 3 => pure (.ProcedureUnavailable, s)
  | 4 => pure (.GarbageArguments, s)
  | 5 => pure (.SystemError, s)
  | _ => Option.none

/-- Decodes a reply body: 0 = Accepted (verifier then accepted body),
1 = Denied, anything else fails. -/
def decodeReplyBody (decT : List Nat → Option (T × List Nat))
    (s : List Nat) : Option (ReplyBody T × List Nat) := do
  let (tag, s) ← readU32 s
  match tag with
  | 0 => do
      let (verifier, s) ← decodeOpaqueAuth s
      let (body, s) ← decodeAcceptedReplyBody decT s
      pure (.Accepted { verifier := verifier, body := body }, s)
  | 1 => pure (.Denied, s)
  | _ => Option.none

/-- Decodes the `CallBody` fields in declaration order. -/
def decodeCallBody (decT : List Nat → Option (T × List Nat))
    (s : List Nat) : Option (CallBody T × List Nat) := do
  let (rpc_version, s) ← readU32 s
  let (program, s) ← readU32 s
  let (version, s) ← readU32 s
  let (procedure, s) ← readU32 s
  let (credential, s) ← decodeOpaqueAuth s
  let (verifier, s) ← decodeOpaqueAuth s
  let (call_args, s) ← decT s
  pure ({ rpc_version := rpc_version, program := program,
          version := version, procedure := procedure,
          credential := credential, verifier := verifier,
          call_args := call_args }, s)

/-- Decodes a message body: 0 = Call, 1 = Reply, anything else fails. -/
def decodeMessageBody (decT : List Nat → Option (T × List Nat))
    (s : List Nat) : Option (MessageBody T × List Nat) := do
  let (tag, s) ← readU32 s
  match tag with
  | 0 => do
      let (cb, s) ← decodeCallBody decT s
      pure (.Call cb, s)
  | 1 => do
      let (rb, s) ← decodeReplyBody decT s
      pure (.Reply rb, s)
  | _ => Option.none

/-- Decodes a `Message<T>`: xid then body, consuming exactly the bytes
the message needs and returning the unread remainder of its input. -/
def decodeMessage (decT : List Nat → Option (T × List Nat))
    (s : List Nat) : Option (Message T × List Nat) := do
  let (xid, s) ← readU32 s
  let (body, s) ← decodeMessageBody decT s
  pure ({ xid := xid, body := body }, s)

/-- Stands in for the derived `Debug` rendering interpolated by
`format!` into `Error::UnexpectedReply`; no claim depends on the exact
text. -/
def Message.debugRepr (reprT : T → String) (m : Message T) : String :=
  "Message xid " ++ Nat.repr m.xid ++ " " ++
    match m.body with
    | .Call cb => "Call procedure " ++ Nat.repr cb.procedure ++ " " ++
        reprT cb.call_args
    | .Reply (.Accepted ar) =>
        "Reply Accepted " ++
          match ar.body with
          | .Success b => "Success " ++ reprT b
          | .ProgramUnavailable => "ProgramUnavailable"
          | .ProgramMismatch low high =>
              "ProgramMismatch " ++ Nat.repr low ++ " " ++ Nat.repr high
          | .ProcedureUnavailable => "ProcedureUnavailable"
          | .GarbageArguments => "GarbageArguments"
          | .SystemError => "SystemError"
    | .Reply .Denied => "Reply Denied"

/-- The error enum of `sun_rpc_client` (src/sun_rpc_client/src/lib.rs,
lines 13-25), variant names as in the source, including the
`Deseralization` spelling.  The payloads of the first three variants
(foreign error types) are erased; `UnexpectedReply` keeps its `String`. -/
inductive Error where
  | Deseralization
  | Serialization
  | Io
  | ProgramUnavailable
  | ProgramMismatch
  | ProcedureUnavailable
  | GarbageArguments
  | SystemError
  | UnexpectedReply (s : String)
deriving DecidableEq

/-- Decidable equality for `Except`, so that the client's results can be
compared on concrete inputs. -/
instance {ε α : Type} [DecidableEq ε] [DecidableEq α] :
    DecidableEq (Except ε α) := fun a b =>
  match a, b with
  | .ok x, .ok y => decidable_of_iff (x = y) (by simp)
  | .error x, .error y => decidable_of_iff (x = y) (by simp)
  | .ok _, .error _ => .isFalse (by simp)
  | .error _, .ok _ => .isFalse (by simp)

/-- The RPC client state (src lines 35-39): the XID counter, the
configured program number, and the owned transport of type `σ`. -/
structure RpcClient (σ : Type) where
  xid : Nat
  program : Nat
  transport : σ
deriving DecidableEq

/-- `RpcClient::new` (src lines 42-48): seeds the XID counter at 1. -/
def RpcClient.new (transport : σ) (program : Nat) : RpcClient σ :=
  { xid := 1, program := program, transport := transport }

/-- The `Call` message built inside `send_request` (src lines 51-68):
`rpc_version = 2`, the configured program, `version = 4`, the given
procedure, an AUTH_SYS credential with stamp 0, machine_name
"test-machine", uid 1337, gid 42, gids [1337], and an AUTH_NONE
verifier. -/
def RpcClient.requestMessage (c : RpcClient σ) (procedure : Nat)
    (args : T) : Message T :=
  { xid := c.xid
    body := MessageBody.Call
      { rpc_version := 2
        program := c.program
        version := 4
        procedure := procedure
        credential := OpaqueAuth.auth_sys
          { stamp := 0
            machine_name :=
              -- the bytes of "test-machine"
              [116, 101, 115, 116, 45, 109, 97, 99, 104, 105, 110, 101]
            uid := 1337
            gid := 42
            gids := [1337] }
        verifier := OpaqueAuth.none
        call_args := args } }

/-- `RpcClient::send_request` (src lines 50-80).  The message is
serialized after a 4-byte placeholder (`vec![0; 4]`); the record mark
`(serialized.len() - 4) as u32 | 0x1 << 31` is then written into those
four bytes, so the fragment length is the byte length of the encoded
message, truncated to `u32`.  The whole buffer goes to the transport in
a single `write_all`, modelled by one call to `writeAll` (failure =
`Option.none`, standing for an I/O error; the transport state after a
failed partial write is not modelled, no claim depends on it).  Only
after a successful write is the XID counter incremented, with `u32`
wrapping semantics. -/
def RpcClient.send_request (writeAll : σ → List Nat → Option σ)
    (c : RpcClient σ) (procedure : Nat) (encT : T → Option (List Nat))
    (args : T) : Except Error Unit × RpcClient σ :=
  match Message.encode encT (c.requestMessage procedure args) with
  | Option.none => (Except.error Error.Serialization, c)
  | some msgBytes =>
    let fragment_header := (msgBytes.length % 2 ^ 32) ||| (1 <<< 31)
    let serialized := be32 fragment_header ++ msgBytes
    match writeAll c.transport serialized with
    | Option.none => (Except.error Error.Io, c)
    | some t' =>
      (Except.ok (), { c with transport := t', xid := (c.xid + 1) % 2 ^ 32 })

/-- `RpcClient::receive_reply` (src lines 82-104).  Reads the 32-bit
record mark, masks off the last-fragment bit (`& !(0x1 << 31)`, i.e.
`% 2^31` for a 32-bit value), hands the decoder at most `length` bytes
(`io::Read::take`), and matches only on `Reply(Accepted(_))`: Success
yields the payload, the other accepted discriminants map to their
errors, and every other message shape becomes
`UnexpectedReply(format!("{reply:?}"))`.  Bytes of the fragment that the
decoder does not consume stay on the transport.  On a decode failure the
transport position is left unmodelled (the original stream is returned);
no claim depends on it. -/
def RpcClient.receive_reply (decT : List Nat → Option (T × List Nat))
    (reprT : T → String) (c : RpcClient (List Nat)) :
    Except Error T × RpcClient (List Nat) :=
  match readU32 c.transport with
  | Option.none => (Except.error Error.Deseralization, c)
  | some (fragment_header, s1) =>
    let length := fragment_header % 2 ^ 31
    let bounded := s1.take length
    match decodeMessage decT bounded with
    | Option.none => (Except.error Error.Deseralization, c)
    | some (reply, remainder) =>
      let rest := s1.drop (bounded.length - remainder.length)
      let res : Except Error T :=
        match reply with
        | { body := MessageBody.Reply (ReplyBody.Accepted accepted_reply), .. } =>
          match accepted_reply.body with
          | .Success b => Except.ok b
          | .ProgramUnavailable => Except.error Error.ProgramUnavailable
          | .ProgramMismatch _ _ => Except.error Error.ProgramMismatch
          | .ProcedureUnavailable => Except.error Error.ProcedureUnavailable
          | .GarbageArguments => Except.error Error.GarbageArguments
          | .SystemError => Except.error Error.SystemError
        | _ => Except.error (Error.UnexpectedReply (reply.debugRepr reprT))
      (res, { c with transport := rest })

/-! Concrete instantiations used to exercise the client on explicit
inputs: payload codecs for the unit call-arguments type (as in the
`ping` test, which sends and receives `()`), writers modelling an
always-succeeding, recording, or failing transport, and explicit reply
byte streams. -/

/-- Decoder for a unit payload: serde decodes `()` from zero bytes. -/
def decodeUnit : List Nat → Option (Unit × List Nat) := fun s => some ((), s)

/-- Debug rendering of the unit payload. -/
def reprUnit : Unit → String := fun _ => "()"

/-- Encoder for a unit payload: serde encodes `()` as zero bytes. -/
def encodeUnit : Unit → Option (List Nat) := fun _ => some []

/-- Raw-bytes payload encoder: the call arguments are already a byte
list and serialize to themselves. -/
def encodeRaw : List Nat → Option (List Nat) := fun l => some l

/-- A transport whose writes always succeed and are discarded. -/
def okWriter : Unit → List Nat → Option Unit := fun _ _ => some ()

/-- A transport that records written bytes by appending them. -/
def appendWriter : List Nat → List Nat → Option (List Nat) :=
  fun t b => some (t ++ b)

/-- A transport whose writes always fail with an I/O error. -/
def failWriter : Unit → List Nat → Option Unit := fun _ _ => Option.none

/-- The hard-coded AUTH_SYS identity sent by `send_request`:
stamp 0, machine_name "test-machine", uid 1337, gid 42, gids [1337]. -/
def sysParameters : AuthSysParameters :=
  { stamp := 0
    machine_name := [116, 101, 115, 116, 45, 109, 97, 99, 104, 105, 110, 101]
    uid := 1337
    gid := 42
    gids := [1337] }

/-- The client state after `n` successful `send_request` calls starting
from `RpcClient::new(transport, 100003)` (every write succeeds, unit
call arguments). -/
def sendsFrom (c : RpcClient Unit) : Nat → RpcClient Unit
  | 0 => c
  | n + 1 => ((sendsFrom c n).send_request okWriter 0 encodeUnit ()).2

/-- Wire bytes of a 24-byte reply message: xid 99, Reply, Accepted,
AUTH_NONE verifier, Success, unit payload. -/
def successBody99 : List Nat :=
  [0, 0, 0, 99] ++ [0, 0, 0, 1] ++ [0, 0, 0, 0] ++
  [0, 0, 0, 0] ++ [0, 0, 0, 0] ++ [0, 0, 0, 0]

/-- A complete single-fragment reply stream: record mark with the
last-fragment bit set and length 24, then `successBody99`. -/
def replyStream99 : List Nat := [128, 0, 0, 24] ++ successBody99

/-- A reply stream whose first record mark has the last-fragment bit
clear (length 28), holding a complete 24-byte message plus 4 unread
bytes, followed by a second (empty, final) fragment's record mark. -/
def fragmentedStream : List Nat :=
  [0, 0, 0, 28] ++ successBody99 ++ [0, 0, 0, 0] ++ [128, 0, 0, 0]

/-- A single-fragment stream whose fragment (length 28) is 4 bytes
longer than the 24-byte message it contains. -/
def slackStream : List Nat :=
  [128, 0, 0, 28] ++ successBody99 ++ [9, 9, 9, 9]

/-- A reply stream carrying a Denied reply with xid 7 (12-byte
message). -/
def deniedStream : List Nat :=
  [128, 0, 0, 12] ++ [0, 0, 0, 7] ++ [0, 0, 0, 1] ++ [0, 0, 0, 1]

/-- A reply stream carrying an Accepted reply with xid 5 whose body
discriminant is GarbageArguments (4). -/
def garbageStream : List Nat :=
  [128, 0, 0, 24] ++ [0, 0, 0, 5] ++ [0, 0, 0, 1] ++ [0, 0, 0, 0] ++
  [0, 0, 0, 0] ++ [0, 0, 0, 0] ++ [0, 0, 0, 4]

/-- The serialized request message of a fresh client calling procedure 0
with unit arguments (76 bytes). -/
def bodyW : List Nat :=
  (Message.encode encodeUnit
    ((RpcClient.new ([] : List Nat) 100003).requestMessage 0 ())).getD []

/-- Call arguments whose raw encoding makes the serialized message
exactly 2^31 + 4 bytes long, overflowing the 31-bit fragment length. -/
def bigArgs : List Nat := List.replicate (2 ^ 31 - 72) 0

/-- The bytes a recording transport holds after sending `bigArgs`. -/
def bigSent : List Nat :=
  ((RpcClient.new ([] : List Nat) 100003).send_request appendWriter 1
    encodeRaw bigArgs).2.transport

/-! Helper lemmas shared by the claim theorems. -/

/-- The record-mark encoding always occupies 4 bytes. -/
theorem length_be32 (n : Nat) : (be32 n).length = 4 := rfl

/-- Reading a 32-bit integer back from its big-endian encoding. -/
theorem readU32_be32 {n : Nat} (h : n < 2 ^ 32) (rest : List Nat) :
    readU32 (be32 n ++ rest) = some (n, rest) := by
  simp only [be32, readU32, List.cons_append, List.nil_append,
    Option.some.injEq, Prod.mk.injEq]
  exact ⟨by omega, trivial⟩

/-- Or-ing a power of two into a number below it is addition. -/
theorem lor_two_pow_of_lt {a i : Nat} (h : a < 2 ^ i) :
    a ||| 2 ^ i = 2 ^ i + a := by
  apply Nat.eq_of_testBit_eq
  intro j
  rcases Nat.lt_trichotomy j i with hj | rfl | hj
  · rw [Nat.testBit_lor, Nat.testBit_two_pow_add_gt hj,
      Nat.testBit_two_pow_of_ne (Nat.ne_of_gt hj), Bool.or_false]
  · rw [Nat.testBit_lor, Nat.testBit_two_pow_add_eq,
      Nat.testBit_lt_two_pow h, Nat.testBit_two_pow_self, Bool.or_true]
    rfl
  · have hpow : 2 ^ (i + 1) ≤ 2 ^ j := Nat.pow_le_pow_right (by norm_num) hj
    have hp : 2 ^ i + a < 2 ^ (i + 1) := by
      have h2 : 2 ^ (i + 1) = 2 ^ i + 2 ^ i := by rw [Nat.pow_succ]; omega
      omega
    have ha : a < 2 ^ j :=
      lt_of_lt_of_le h (Nat.pow_le_pow_right (by norm_num) (Nat.le_of_lt hj))
    have hs : 2 ^ i + a < 2 ^ j := lt_of_lt_of_le hp hpow
    rw [Nat.testBit_lor, Nat.testBit_lt_two_pow ha,
      Nat.testBit_two_pow_of_ne (Nat.ne_of_lt hj), Nat.testBit_lt_two_pow hs,
      Bool.or_false]

/-- The record mark of a fragment shorter than 2^31 bytes is the length
plus the last-fragment bit. -/
theorem header_eq_of_lt {L : Nat} (h : L < 2 ^ 31) :
    (L % 2 ^ 32) ||| (1 <<< 31) = 2 ^ 31 + L := by
  rw [Nat.shiftLeft_eq, one_mul, Nat.mod_eq_of_lt (lt_trans h (by norm_num)),
    lor_two_pow_of_lt h]

/-- The last-fragment bit of the record mark is set. -/
theorem header_testBit31 {L : Nat} (h : L < 2 ^ 31) :
    ((L % 2 ^ 32) ||| (1 <<< 31)).testBit 31 = true := by
  rw [header_eq_of_lt h, Nat.testBit_two_pow_add_eq, Nat.testBit_lt_two_pow h]
  rfl

/-- The low 31 bits of the record mark recover the fragment length. -/
theorem header_low31 {L : Nat} (h : L < 2 ^ 31) :
    ((L % 2 ^ 32) ||| (1 <<< 31)) % 2 ^ 31 = L := by
  rw [header_eq_of_lt h, Nat.add_mod_left, Nat.mod_eq_of_lt h]

/-- For a message of length 2^31 + 4 the or with the last-fragment bit
changes nothing: bit 31 is already set by the length itself. -/
theorem header_big :
    (((2 : Nat) ^ 31 + 4) % 2 ^ 32) ||| (1 <<< 31) = 2 ^ 31 + 4 := by
  rw [Nat.shiftLeft_eq, one_mul, Nat.mod_eq_of_lt (by norm_num)]
  have h4 : (4 : Nat) ||| 2 ^ 31 = 2 ^ 31 + 4 := lor_two_pow_of_lt (by norm_num)
  calc (2 ^ 31 + 4 : Nat) ||| 2 ^ 31
      = (4 ||| 2 ^ 31) ||| 2 ^ 31 := by rw [h4]
    _ = 4 ||| (2 ^ 31 ||| 2 ^ 31) := Nat.or_assoc 4 (2 ^ 31) (2 ^ 31)
    _ = 4 ||| 2 ^ 31 := by rw [Nat.or_self]
    _ = 2 ^ 31 + 4 := h4

/-- Wire form of the message `send_request` builds: the Call
discriminant 0, `rpc_version` 2, the client's program, `version` 4, the
procedure, the hard-coded AUTH_SYS credential, the AUTH_NONE verifier,
then the encoded call arguments. -/
theorem encode_requestMessage (c : RpcClient σ) (p : Nat)
    (encT : T → Option (List Nat)) (args : T) :
    Message.encode encT (c.requestMessage p args) =
      (encT args).map (fun ab => be32 c.xid ++
        (be32 0 ++ be32 2 ++ be32 c.program ++ be32 4 ++ be32 p ++
          (OpaqueAuth.auth_sys sysParameters).encode ++
          OpaqueAuth.none.encode ++ ab)) := by
  cases h : encT args <;>
    simp [Message.encode, MessageBody.encode, RpcClient.requestMessage, h,
      sysParameters]

/-- Byte length of an encoded request: 76 bytes of fixed fields plus the
encoded call arguments. -/
theorem length_encode_request (xid prog p : Nat) (ab : List Nat) :
    (be32 xid ++ (be32 0 ++ be32 2 ++ be32 prog ++ be32 4 ++ be32 p ++
      (OpaqueAuth.auth_sys sysParameters).encode ++
      OpaqueAuth.none.encode ++ ab)).length = 76 + ab.length := by
  have hc : (OpaqueAuth.auth_sys sysParameters).encode.length = 44 := by decide
  have hn : (OpaqueAuth.none.encode).length = 8 := by decide
  simp [List.length_append, length_be32, hc, hn]
  omega

/-- Unfolding of a successful serialization inside `send_request`: the
transport receives the record mark and the message as one list, in one
`writeAll` call. -/
theorem send_request_eq {B : List Nat} (writeAll : σ → List Nat → Option σ)
    (c : RpcClient σ) (p : Nat) (encT : T → Option (List Nat)) (args : T)
    (h : Message.encode encT (c.requestMessage p args) = some B) :
    c.send_request writeAll p encT args =
      match writeAll c.transport (be32 ((B.length % 2 ^ 32) ||| (1 <<< 31)) ++ B) with
      | Option.none => (Except.error Error.Io, c)
      | some t' =>
        (Except.ok (), { c with transport := t', xid := (c.xid + 1) % 2 ^ 32 }) := by
  unfold RpcClient.send_request
  rw [h]

/-- One successful send with the discarding transport only bumps the
XID counter, with wrap-around at 2^32. -/
theorem send_step (c : RpcClient Unit) :
    (c.send_request okWriter 0 encodeUnit ()).2 =
      { c with xid := (c.xid + 1) % 2 ^ 32 } := rfl

/-- Closed form of the XID counter: after `n` successful requests the
stored next XID is `(1 + n) % 2^32`. -/
theorem sendsFrom_xid (n : Nat) :
    (sendsFrom (RpcClient.new () 100003) n).xid = (1 + n) % 2 ^ 32 := by
  induction n with
  | zero => rfl
  | succ n ih =>
    show ((sendsFrom (RpcClient.new () 100003) n).send_request okWriter 0
      encodeUnit ()).2.xid = _
    rw [send_step]
    show ((sendsFrom (RpcClient.new () 100003) n).xid + 1) % 2 ^ 32 = _
    rw [ih]
    omega

/-- The XID carried by an emitted Call message is the client's stored
counter value. -/
theorem requestMessage_xid (c : RpcClient σ) (p : Nat) (args : T) :
    (c.requestMessage p args).xid = c.xid := rfl

/-! Claim theorems. -/

/-- C4 (amended): XIDs carried by the emitted Call messages of a single
client are strictly increasing as long as the (wrapping) 32-bit counter
has not wrapped, i.e. among the first 2^32 - 1 requests. -/
theorem send_request_xids_strictly_increasing (i j : Nat) (hij : i < j)
    (hj : j + 1 < 2 ^ 32) :
    ((sendsFrom (RpcClient.new () 100003) i).requestMessage 0 ()).xid <
      ((sendsFrom (RpcClient.new () 100003) j).requestMessage 0 ()).xid := by
  rw [requestMessage_xid, requestMessage_xid]
  rw [sendsFrom_xid, sendsFrom_xid, Nat.mod_eq_of_lt (by omega),
    Nat.mod_eq_of_lt (by omega)]
  omega

/-- Witness for C4's amended theorem at requests 0 and 1. -/
theorem send_request_xids_strictly_increasing_witness :
    0 < 1 ∧ 1 + 1 < 2 ^ 32 ∧
      ((sendsFrom (RpcClient.new () 100003) 0).requestMessage 0 ()).xid <
        ((sendsFrom (RpcClient.new () 100003) 1).requestMessage 0 ()).xid :=
  ⟨by decide, by decide,
    send_request_xids_strictly_increasing 0 1 (by decide) (by decide)⟩

/-- C4 (counterexample): the XID counter wraps modulo 2^32, so request
number 2^32 - 1 carries XID 0, smaller than the XID 1 of request 0, and
request number 2^32 reuses XID 1. -/
theorem send_request_xid_wraps_cx :
    ((sendsFrom (RpcClient.new () 100003) 0).requestMessage 0 ()).xid = 1 ∧
    ((sendsFrom (RpcClient.new () 100003) (2 ^ 32 - 1)).requestMessage 0 ()).xid = 0 ∧
    ((sendsFrom (RpcClient.new () 100003) (2 ^ 32)).requestMessage 0 ()).xid = 1 := by
  refine ⟨rfl, ?_, ?_⟩
  · rw [requestMessage_xid, sendsFrom_xid]
    omega
  · rw [requestMessage_xid, sendsFrom_xid]
    omega

/-- C9: when `send_request` fails, either at serialization or at the
transport write, the XID counter is unchanged; it is bumped only after a
fully successful write. -/
theorem send_request_error_preserves_xid (writeAll : σ → List Nat → Option σ)
    (c : RpcClient σ) (p : Nat) (encT : T → Option (List Nat)) (args : T)
    (e : Error) (h : (c.send_request writeAll p encT args).1 = Except.error e) :
    (c.send_request writeAll p encT args).2.xid = c.xid := by
  unfold RpcClient.send_request at h ⊢
  cases hE : Message.encode encT (c.requestMessage p args) with
  | none => simp [hE]
  | some B =>
    simp only [hE] at h ⊢
    cases hW : writeAll c.transport
        (be32 ((B.length % 2 ^ 32) ||| (1 <<< 31)) ++ B) with
    | none => simp [hW]
    | some t' =>
      rw [hW] at h
      simp at h

/-- Witness for C9 at a failing transport write. -/
theorem send_request_error_preserves_xid_witness :
    ((RpcClient.new () 100003).send_request failWriter 0 encodeUnit ()).1 =
      Except.error Error.Io ∧
    ((RpcClient.new () 100003).send_request failWriter 0 encodeUnit ()).2.xid =
      (RpcClient.new () 100003).xid :=
  ⟨rfl, send_request_error_preserves_xid failWriter (RpcClient.new () 100003) 0
    encodeUnit () Error.Io rfl⟩

/-- C10 (amended): `RpcClient::new` seeds the XID counter at 1 for every
transport and program (the caller cannot choose the seed), the first
emitted Call carries XID 1, and after `n` successful requests the stored
next XID is `(n + 1) % 2^32`. -/
theorem new_seeds_xid_one :
    (∀ (σ' : Type) (t : σ') (p : Nat), (RpcClient.new t p).xid = 1) ∧
    (∀ (σ' : Type) (t : σ') (p : Nat) (T' : Type) (procedure : Nat) (args : T'),
      ((RpcClient.new t p).requestMessage procedure args).xid = 1) ∧
    (∀ n : Nat, (sendsFrom (RpcClient.new () 100003) n).xid = (1 + n) % 2 ^ 32) :=
  ⟨fun _ _ _ => rfl, fun _ _ _ _ _ _ => rfl, sendsFrom_xid⟩

/-- C10 (counterexample): after 2^32 successful requests the stored next
XID is 1 again, not 2^32 + 1: the counter wraps. -/
theorem new_xid_counter_wraps_cx :
    (sendsFrom (RpcClient.new () 100003) (2 ^ 32)).xid = 1 ∧
    (1 : Nat) ≠ 2 ^ 32 + 1 := by
  constructor
  · rw [sendsFrom_xid]
    omega
  · decide

/-- C7 (amended): every emitted message is a Call with `rpc_version` 2,
the constructed program, `version` 4, the given procedure, the
hard-coded AUTH_SYS credential (stamp 0, machine_name "test-machine",
uid 1337, gid 42, gids [1337]) and an AUTH_NONE verifier; on the wire
this is the Call discriminant followed by those fields. -/
theorem send_request_call_fields (c : RpcClient σ) (p : Nat)
    (encT : T → Option (List Nat)) (args : T) :
    c.requestMessage p args =
      { xid := c.xid
        body := MessageBody.Call
          { rpc_version := 2
            program := c.program
            version := 4
            procedure := p
            credential := OpaqueAuth.auth_sys sysParameters
            verifier := OpaqueAuth.none
            call_args := args } } ∧
    Message.encode encT (c.requestMessage p args) =
      (encT args).map (fun ab => be32 c.xid ++
        (be32 0 ++ be32 2 ++ be32 c.program ++ be32 4 ++ be32 p ++
          (OpaqueAuth.auth_sys sysParameters).encode ++
          OpaqueAuth.none.encode ++ ab)) :=
  ⟨rfl, encode_requestMessage c p encT args⟩

/-- C7 (counterexample): the AUTH_SYS identity is not a construction
parameter: `new` takes only a transport and a program, and clients
constructed with different arguments emit the identical hard-coded
credential. -/
theorem request_credential_not_configurable_cx :
    (RpcClient.new () 100003).requestMessage 0 () =
      { xid := 1
        body := MessageBody.Call
          { rpc_version := 2, program := 100003, version := 4, procedure := 0
            credential := OpaqueAuth.auth_sys sysParameters
            verifier := OpaqueAuth.none, call_args := () } } ∧
    (RpcClient.new () 100000).requestMessage 0 () =
      { xid := 1
        body := MessageBody.Call
          { rpc_version := 2, program := 100000, version := 4, procedure := 0
            credential := OpaqueAuth.auth_sys sysParameters
            verifier := OpaqueAuth.none, call_args := () } } :=
  ⟨rfl, rfl⟩

/-- C3 (amended): a successful `send_request` hands the transport, in a
single write, the 4-byte big-endian record mark followed by the
serialized message; the mark's bit 31 is set, and its low 31 bits equal
the message length whenever that length is below 2^31 (the length is
truncated into the low 31 bits otherwise, see the counterexample). -/
theorem send_request_record_mark (writeAll : σ → List Nat → Option σ)
    (c : RpcClient σ) (p : Nat) (encT : T → Option (List Nat)) (args : T)
    (B : List Nat)
    (henc : Message.encode encT (c.requestMessage p args) = some B)
    (hlen : B.length < 2 ^ 31) :
    (c.send_request writeAll p encT args =
      match writeAll c.transport
          (be32 ((B.length % 2 ^ 32) ||| (1 <<< 31)) ++ B) with
      | Option.none => (Except.error Error.Io, c)
      | some t' =>
        (Except.ok (), { c with transport := t', xid := (c.xid + 1) % 2 ^ 32 })) ∧
    ((B.length % 2 ^ 32) ||| (1 <<< 31)).testBit 31 = true ∧
    ((B.length % 2 ^ 32) ||| (1 <<< 31)) % 2 ^ 31 = B.length :=
  ⟨send_request_eq writeAll c p encT args henc, header_testBit31 hlen,
    header_low31 hlen⟩

/-- Witness for C3's amended theorem: the 76-byte unit-argument request
of a fresh client, written to a recording transport. -/
theorem send_request_record_mark_witness :
    Message.encode encodeUnit
      ((RpcClient.new ([] : List Nat) 100003).requestMessage 0 ()) = some bodyW ∧
    bodyW.length < 2 ^ 31 ∧
    (((RpcClient.new ([] : List Nat) 100003).send_request appendWriter 0
        encodeUnit () =
      match appendWriter (RpcClient.new ([] : List Nat) 100003).transport
          (be32 ((bodyW.length % 2 ^ 32) ||| (1 <<< 31)) ++ bodyW) with
      | Option.none => (Except.error Error.Io, RpcClient.new ([] : List Nat) 100003)
      | some t' =>
        (Except.ok (), { RpcClient.new ([] : List Nat) 100003 with
          transport := t'
          xid := ((RpcClient.new ([] : List Nat) 100003).xid + 1) % 2 ^ 32 })) ∧
    ((bodyW.length % 2 ^ 32) ||| (1 <<< 31)).testBit 31 = true ∧
    ((bodyW.length % 2 ^ 32) ||| (1 <<< 31)) % 2 ^ 31 = bodyW.length) :=
  ⟨rfl, by decide, send_request_record_mark appendWriter
    (RpcClient.new ([] : List Nat) 100003) 0 encodeUnit () bodyW rfl (by decide)⟩

/-- C3 (counterexample): for call arguments that make the serialized
message 2^31 + 4 bytes long, the record mark's low 31 bits are 4, not
the message length: the `as u32 | 1 << 31` computation truncates. -/
theorem send_request_record_mark_overflow_cx :
    bigSent.take 4 = be32 (2 ^ 31 + 4) ∧
    (bigSent.drop 4).length = 2 ^ 31 + 4 ∧
    (2 ^ 31 + 4) % 2 ^ 31 ≠ (bigSent.drop 4).length := by
  have henc : Message.encode encodeRaw
      ((RpcClient.new ([] : List Nat) 100003).requestMessage 1 bigArgs) =
      some (be32 1 ++ (be32 0 ++ be32 2 ++ be32 100003 ++ be32 4 ++ be32 1 ++
        (OpaqueAuth.auth_sys sysParameters).encode ++
        OpaqueAuth.none.encode ++ bigArgs)) := by
    rw [encode_requestMessage]
    rfl
  have hlen : (be32 1 ++ (be32 0 ++ be32 2 ++ be32 100003 ++ be32 4 ++ be32 1 ++
      (OpaqueAuth.auth_sys sysParameters).encode ++
      OpaqueAuth.none.encode ++ bigArgs)).length = 2 ^ 31 + 4 := by
    rw [length_encode_request 1 100003 1 bigArgs,
      show bigArgs.length = 2 ^ 31 - 72 from List.length_replicate _ _]
    norm_num
  have hsend := send_request_eq appendWriter
    (RpcClient.new ([] : List Nat) 100003) 1 encodeRaw bigArgs henc
  have hbs : bigSent = be32 (2 ^ 31 + 4) ++ (be32 1 ++ (be32 0 ++ be32 2 ++
      be32 100003 ++ be32 4 ++ be32 1 ++
      (OpaqueAuth.auth_sys sysParameters).encode ++
      OpaqueAuth.none.encode ++ bigArgs)) := by
    show ((RpcClient.new ([] : List Nat) 100003).send_request appendWriter 1
      encodeRaw bigArgs).2.transport = _
    rw [hsend, hlen, header_big]
    exact List.nil_append _
  rw [hbs]
  refine ⟨List.take_left' rfl, ?_, ?_⟩
  · rw [List.drop_left' (by rfl), hlen]
  · rw [List.drop_left' (by rfl), hlen]
    decide

/-- C6: for a reply that decodes to an Accepted body, `receive_reply`
returns the payload on Success and otherwise the typed error matching
the discriminant verbatim. -/
theorem receive_reply_accepted_mapping (decT : List Nat → Option (T × List Nat))
    (reprT : T → String) (c : RpcClient (List Nat)) (fh : Nat)
    (s1 rem : List Nat) (msg : Message T) (ar : AcceptedReply T)
    (hread : readU32 c.transport = some (fh, s1))
    (hdec : decodeMessage decT (s1.take (fh % 2 ^ 31)) = some (msg, rem))
    (hbody : msg.body = MessageBody.Reply (ReplyBody.Accepted ar)) :
    (RpcClient.receive_reply decT reprT c).1 =
      match ar.body with
      | .Success b => Except.ok b
      | .ProgramUnavailable => Except.error Error.ProgramUnavailable
      | .ProgramMismatch _ _ => Except.error Error.ProgramMismatch
      | .ProcedureUnavailable => Except.error Error.ProcedureUnavailable
      | .GarbageArguments => Except.error Error.GarbageArguments
      | .SystemError => Except.error Error.SystemError := by
  obtain ⟨x, body⟩ := msg
  simp only at hbody
  subst hbody
  unfold RpcClient.receive_reply
  rw [hread]
  simp only [hdec]

/-- Witness for C6 at a GarbageArguments reply. -/
theorem receive_reply_accepted_mapping_witness :
    readU32 (RpcClient.mk 2 100003 garbageStream).transport =
      some (2 ^ 31 + 24, garbageStream.drop 4) ∧
    decodeMessage decodeUnit ((garbageStream.drop 4).take ((2 ^ 31 + 24) % 2 ^ 31)) =
      some ({ xid := 5, body := MessageBody.Reply (ReplyBody.Accepted
        { verifier := OpaqueAuth.none,
          body := AcceptedReplyBody.GarbageArguments }) }, []) ∧
    (RpcClient.receive_reply decodeUnit reprUnit
      (RpcClient.mk 2 100003 garbageStream)).1 =
        Except.error Error.GarbageArguments :=
  ⟨by decide, by decide,
    receive_reply_accepted_mapping decodeUnit reprUnit
      (RpcClient.mk 2 100003 garbageStream) (2 ^ 31 + 24) (garbageStream.drop 4)
      [] { xid := 5, body := MessageBody.Reply (ReplyBody.Accepted
        { verifier := OpaqueAuth.none,
          body := AcceptedReplyBody.GarbageArguments }) }
      { verifier := OpaqueAuth.none, body := AcceptedReplyBody.GarbageArguments }
      (by decide) (by decide) rfl⟩

/-- C1 (amended): `receive_reply` never inspects the XID.  Whatever XID
`x` the decoded Accepted/Success reply carries, and whatever the
client's counter state, the payload is returned; an XID mismatch with
the most recent request is not detected and does not produce
`UnexpectedReply`. -/
theorem receive_reply_does_not_check_xid
    (decT : List Nat → Option (T × List Nat)) (reprT : T → String)
    (c : RpcClient (List Nat)) (fh : Nat) (s1 rem : List Nat)
    (x : Nat) (v : OpaqueAuth) (b : T)
    (hread : readU32 c.transport = some (fh, s1))
    (hdec : decodeMessage decT (s1.take (fh % 2 ^ 31)) =
      some ({ xid := x, body := MessageBody.Reply (ReplyBody.Accepted
        { verifier := v, body := AcceptedReplyBody.Success b }) }, rem)) :
    (RpcClient.receive_reply decT reprT c).1 = Except.ok b := by
  unfold RpcClient.receive_reply
  rw [hread]
  simp only [hdec]

/-- Witness for C1's amended theorem: client counter at 2, reply XID
99. -/
theorem receive_reply_does_not_check_xid_witness :
    readU32 (RpcClient.mk 2 100003 replyStream99).transport =
      some (2 ^ 31 + 24, successBody99) ∧
    decodeMessage decodeUnit (successBody99.take ((2 ^ 31 + 24) % 2 ^ 31)) =
      some ({ xid := 99, body := MessageBody.Reply (ReplyBody.Accepted
        { verifier := OpaqueAuth.none,
          body := AcceptedReplyBody.Success () }) }, []) ∧
    (RpcClient.receive_reply decodeUnit reprUnit
      (RpcClient.mk 2 100003 replyStream99)).1 = Except.ok () :=
  ⟨by decide, by decide,
    receive_reply_does_not_check_xid decodeUnit reprUnit
      (RpcClient.mk 2 100003 replyStream99) (2 ^ 31 + 24) successBody99 []
      99 OpaqueAuth.none () (by decide) (by decide)⟩

/-- C1 (counterexample): after one send the client's counter is 2 (the
request carried XID 1), yet a reply carrying XID 99 with an
Accepted/Success body returns the payload instead of the
`UnexpectedReply` error. -/
theorem receive_reply_xid_mismatch_cx :
    ((RpcClient.new () 100003).send_request okWriter 0 encodeUnit ()).2.xid = 2 ∧
    decodeMessage decodeUnit successBody99 =
      some ({ xid := 99, body := MessageBody.Reply (ReplyBody.Accepted
        { verifier := OpaqueAuth.none,
          body := AcceptedReplyBody.Success () }) }, []) ∧
    RpcClient.receive_reply decodeUnit reprUnit
        (RpcClient.mk 2 100003 replyStream99) =
      (Except.ok (), RpcClient.mk 2 100003 []) :=
  ⟨rfl, by decide, by decide⟩

/-- C5 (amended): a reply whose body is Denied falls through the
`Reply(Accepted(_))` pattern and is reported as `UnexpectedReply`; the
`Error` type of the source has no dedicated RpcDenied variant. -/
theorem receive_reply_denied_is_unexpected
    (decT : List Nat → Option (T × List Nat)) (reprT : T → String)
    (c : RpcClient (List Nat)) (fh : Nat) (s1 rem : List Nat) (x : Nat)
    (hread : readU32 c.transport = some (fh, s1))
    (hdec : decodeMessage decT (s1.take (fh % 2 ^ 31)) =
      some ({ xid := x, body := MessageBody.Reply ReplyBody.Denied }, rem)) :
    (RpcClient.receive_reply decT reprT c).1 =
      Except.error (Error.UnexpectedReply (Message.debugRepr reprT
        { xid := x, body := MessageBody.Reply ReplyBody.Denied })) := by
  unfold RpcClient.receive_reply
  rw [hread]
  simp only [hdec]

/-- Witness for C5's amended theorem at a concrete Denied reply. -/
theorem receive_reply_denied_is_unexpected_witness :
    readU32 (RpcClient.mk 2 100003 deniedStream).transport =
      some (2 ^ 31 + 12, deniedStream.drop 4) ∧
    decodeMessage decodeUnit ((deniedStream.drop 4).take ((2 ^ 31 + 12) % 2 ^ 31)) =
      some ({ xid := 7, body := MessageBody.Reply ReplyBody.Denied }, []) ∧
    (RpcClient.receive_reply decodeUnit reprUnit
      (RpcClient.mk 2 100003 deniedStream)).1 =
        Except.error (Error.UnexpectedReply (Message.debugRepr reprUnit
          { xid := 7, body := MessageBody.Reply ReplyBody.Denied })) :=
  ⟨by decide, by decide,
    receive_reply_denied_is_unexpected decodeUnit reprUnit
      (RpcClient.mk 2 100003 deniedStream) (2 ^ 31 + 12) (deniedStream.drop 4)
      [] 7 (by decide) (by decide)⟩

/-- C5 (counterexample): a Denied reply makes `receive_reply` return the
`UnexpectedReply` error, not a distinct RpcDenied error kind. -/
theorem receive_reply_denied_cx :
    RpcClient.receive_reply decodeUnit reprUnit
        (RpcClient.mk 2 100003 deniedStream) =
      (Except.error (Error.UnexpectedReply (Message.debugRepr reprUnit
        { xid := 7, body := MessageBody.Reply ReplyBody.Denied })),
       RpcClient.mk 2 100003 []) := by decide

/-- C8 (amended): after the record mark, the decoder is handed at most
`length` bytes of the transport (`io::Read::take`); exactly the bytes
the message decoder consumes come off the transport, and any remaining
bytes of the fragment stay there. -/
theorem receive_reply_bounded_read (decT : List Nat → Option (T × List Nat))
    (reprT : T → String) (c : RpcClient (List Nat)) (fh : Nat)
    (s1 rem : List Nat) (msg : Message T)
    (hread : readU32 c.transport = some (fh, s1))
    (hdec : decodeMessage decT (s1.take (fh % 2 ^ 31)) = some (msg, rem)) :
    (RpcClient.receive_reply decT reprT c).2.transport =
      s1.drop ((s1.take (fh % 2 ^ 31)).length - rem.length) ∧
    (s1.take (fh % 2 ^ 31)).length - rem.length ≤ fh % 2 ^ 31 := by
  constructor
  · unfold RpcClient.receive_reply
    rw [hread]
    simp only [hdec]
  · have h1 : (s1.take (fh % 2 ^ 31)).length ≤ fh % 2 ^ 31 := by
      rw [List.length_take]
      omega
    omega

/-- Witness for C8's amended theorem at a fragment 4 bytes longer than
its message. -/
theorem receive_reply_bounded_read_witness :
    readU32 (RpcClient.mk 2 100003 slackStream).transport =
      some (2 ^ 31 + 28, successBody99 ++ [9, 9, 9, 9]) ∧
    decodeMessage decodeUnit
        ((successBody99 ++ [9, 9, 9, 9]).take ((2 ^ 31 + 28) % 2 ^ 31)) =
      some ({ xid := 99, body := MessageBody.Reply (ReplyBody.Accepted
        { verifier := OpaqueAuth.none,
          body := AcceptedReplyBody.Success () }) }, [9, 9, 9, 9]) ∧
    ((RpcClient.receive_reply decodeUnit reprUnit
        (RpcClient.mk 2 100003 slackStream)).2.transport =
      (successBody99 ++ [9, 9, 9, 9]).drop
        (((successBody99 ++ [9, 9, 9, 9]).take ((2 ^ 31 + 28) % 2 ^ 31)).length -
          ([9, 9, 9, 9] : List Nat).length) ∧
    ((successBody99 ++ [9, 9, 9, 9]).take ((2 ^ 31 + 28) % 2 ^ 31)).length -
        ([9, 9, 9, 9] : List Nat).length ≤ (2 ^ 31 + 28) % 2 ^ 31) :=
  ⟨by decide, by decide,
    receive_reply_bounded_read decodeUnit reprUnit
      (RpcClient.mk 2 100003 slackStream) (2 ^ 31 + 28)
      (successBody99 ++ [9, 9, 9, 9]) [9, 9, 9, 9]
      { xid := 99, body := MessageBody.Reply (ReplyBody.Accepted
        { verifier := OpaqueAuth.none,
          body := AcceptedReplyBody.Success () }) }
      (by decide) (by decide)⟩

/-- C8 (counterexample): a 28-byte fragment whose message needs only 24
bytes returns successfully while 4 bytes of the fragment are left
unconsumed on the transport. -/
theorem receive_reply_fragment_remainder_cx :
    RpcClient.receive_reply decodeUnit reprUnit
        (RpcClient.mk 2 100003 slackStream) =
      (Except.ok (), RpcClient.mk 2 100003 [9, 9, 9, 9]) ∧
    ([9, 9, 9, 9] : List Nat) ≠ [] :=
  ⟨by decide, by decide⟩

/-- C2 (amended): `receive_reply` reads exactly one fragment and ignores
the last-fragment bit: two record marks that agree on the low 31 bits
produce the same result, whether or not bit 31 is set; no fragment
reassembly happens. -/
theorem receive_reply_ignores_last_fragment_bit
    (decT : List Nat → Option (T × List Nat)) (reprT : T → String)
    (c : RpcClient (List Nat)) (h₁ h₂ : Nat) (rest : List Nat)
    (e₁ : h₁ < 2 ^ 32) (e₂ : h₂ < 2 ^ 32) (hm : h₁ % 2 ^ 31 = h₂ % 2 ^ 31) :
    (RpcClient.receive_reply decT reprT
      { c with transport := be32 h₁ ++ rest }).1 =
    (RpcClient.receive_reply decT reprT
      { c with transport := be32 h₂ ++ rest }).1 := by
  unfold RpcClient.receive_reply
  simp only [readU32_be32 e₁, readU32_be32 e₂]
  rw [hm]
  cases hd : decodeMessage decT (List.take (h₂ % 2 ^ 31) rest) with
  | none => rfl
  | some pr => rfl

/-- Witness for C2's amended theorem: masked length 24 with the
last-fragment bit clear versus set. -/
theorem receive_reply_ignores_last_fragment_bit_witness :
    (24 : Nat) < 2 ^ 32 ∧ 2 ^ 31 + 24 < 2 ^ 32 ∧
    (24 : Nat) % 2 ^ 31 = (2 ^ 31 + 24) % 2 ^ 31 ∧
    (RpcClient.receive_reply decodeUnit reprUnit
      (RpcClient.mk 2 100003 (be32 24 ++ successBody99))).1 =
    (RpcClient.receive_reply decodeUnit reprUnit
      (RpcClient.mk 2 100003 (be32 (2 ^ 31 + 24) ++ successBody99))).1 :=
  ⟨by decide, by decide, by decide,
    receive_reply_ignores_last_fragment_bit decodeUnit reprUnit
      (RpcClient.mk 2 100003 []) 24 (2 ^ 31 + 24) successBody99
      (by decide) (by decide) (by decide)⟩

/-- C2 (counterexample): on a stream whose first record mark has the
last-fragment bit clear, `receive_reply` decodes the first fragment
alone and returns while the 4 trailing fragment bytes and the entire
second fragment (its record mark included) remain unread on the
transport: no fragments are concatenated. -/
theorem receive_reply_single_fragment_cx :
    RpcClient.receive_reply decodeUnit reprUnit
        (RpcClient.mk 2 100003 fragmentedStream) =
      (Except.ok (), RpcClient.mk 2 100003 ([0, 0, 0, 0] ++ [128, 0, 0, 0])) ∧
    ([0, 0, 0, 0] ++ [128, 0, 0, 0] : List Nat) ≠ [] :=
  ⟨by decide, by decide⟩

end SunRpcClient
